import Mathlib

/-
Shallow embedding of src/worker.js (a GraphQL proxy worker for the OpenAI
chat-completion API).

Modelling choices:
* JavaScript JSON values reachable by the resolvers are modelled by `JsVal`.
  Property access `x.f` is `JsVal.getProp`: it throws (returns `none`) on
  `undefined`, yields the field on an object (or `undefined` when the key is
  absent), and yields `undefined` on other values.  Index access `x[i]` is
  `JsVal.getIdx` with the same convention.
* The upstream `fetch` is an oracle `upstream : OutboundRequest → FetchResult`.
  `FetchResult.networkError` models a rejected fetch; `FetchResult.resp status
  body` models an HTTP response whose `json()` either throws (`body = none`,
  a non-JSON body) or yields a parsed `JsVal`.
* A resolver run returns a `RunResult`: the GraphQL-level outcome
  (`Except errMessage value`), the list of outbound requests issued, and the
  list of `console.error` diagnostic emissions.
* `temperature` is the exact rational 7/10, matching the literal 0.7.
-/

inductive JsVal where
  | undefined
  | str (s : String)
  | int (n : Int)
  | arr (elems : List JsVal)
  | obj (fields : List (String × JsVal))

/-- Property access `v.key`: throws on `undefined`, field-or-undefined on an
object, `undefined` on every other value. -/
def JsVal.getProp : JsVal → String → Option JsVal
  | .undefined, _ => none
  | .obj fields, key => some ((fields.lookup key).getD .undefined)
  | _, _ => some .undefined

/-- Index access `v[i]`: throws on `undefined`, element-or-undefined on an
array, `undefined` on every other value. -/
def JsVal.getIdx : JsVal → Nat → Option JsVal
  | .undefined, _ => none
  | .arr elems, i => some ((elems.get? i).getD .undefined)
  | _, _ => some .undefined

/-- One element of the `messages` array in the outbound JSON body. -/
structure ChatMessage where
  role : String
  content : String
deriving DecidableEq

/-- The JSON body sent to the upstream chat-completion endpoint. -/
structure RequestBody where
  model : String
  messages : List ChatMessage
  temperature : Rat
deriving DecidableEq

/-- The outbound HTTP request built inside a resolver. -/
structure OutboundRequest where
  url : String
  method : String
  contentType : String
  authorization : String
  body : RequestBody
deriving DecidableEq

/-- Outcome of one upstream fetch: a rejected promise, or a response with a
status code and a body that is either non-JSON (`none`) or parses to a value. -/
inductive FetchResult where
  | networkError
  | resp (status : Nat) (body : Option JsVal)

/-- `response.ok`: status in the range 200..299. -/
def statusOk (status : Nat) : Bool := decide (200 ≤ status ∧ status < 300)

/-- One `console.error` emission inside a resolver catch block; the payload
distinguishes which internal error was logged. -/
inductive LogEntry where
  | upstreamError (payload : JsVal)
  | networkFailure
  | jsonParseFailure
  | shapeFailure

/-- Observable outcome of one resolver invocation: the GraphQL-level result,
the outbound requests issued, and the diagnostic log emissions. -/
structure RunResult (α : Type) where
  result : Except String α
  calls : List OutboundRequest
  logs : List LogEntry

/-- The ChatResponse GraphQL record: a single field `text`. -/
structure ChatResponse where
  text : JsVal

/-- The UsageInfo GraphQL record. -/
structure UsageInfo where
  promptTokens : JsVal
  completionTokens : JsVal
  totalTokens : JsVal

/-- The MetadataInfo GraphQL record. -/
structure MetadataInfo where
  model : String
  finishReason : JsVal

/-- The OpenAIResponse GraphQL record. -/
structure OpenAIResponse where
  text : JsVal
  usage : UsageInfo
  metadata : MetadataInfo

def openAIEndpoint : String := "https://api.openai.com/v1/chat/completions"

def chatSystemContent : String := "请用中文回复用户的所有问题。"

def askSystemContent : String :=
  "你是一个有帮助的AI助手。请直接回答用户的问题，不要质疑他们的输入内容。如果用户输入不明确或简短，尝试理解并提供最相关的回应。请用中文回复。"

def defaultModel : String := "gpt-3.5-turbo"

def configErrorMessage : String := "OpenAI API key is not configured"

def genericErrorMessage : String := "Failed to get response from OpenAI"

/-- The outbound request built by the `chat` resolver (worker.js lines 46-66). -/
def chatRequest (apiKey message : String) : OutboundRequest :=
  { url := openAIEndpoint
    method := "POST"
    contentType := "application/json"
    authorization := "Bearer " ++ apiKey
    body := { model := defaultModel
              messages := [{ role := "system", content := chatSystemContent },
                           { role := "user", content := message }]
              temperature := 7/10 } }

/-- The outbound request built by the `askOpenAI` resolver
(worker.js lines 91-111). -/
def askRequest (apiKey model prompt : String) : OutboundRequest :=
  { url := openAIEndpoint
    method := "POST"
    contentType := "application/json"
    authorization := "Bearer " ++ apiKey
    body := { model := model
              messages := [{ role := "system", content := askSystemContent },
                           { role := "user", content := prompt }]
              temperature := 7/10 } }

/-- `data.choices[0].message.content` (worker.js line 75). `none` models a
thrown TypeError along the access chain. -/
def extractChatText (data : JsVal) : Option JsVal :=
  (data.getProp "choices").bind fun choices =>
  (choices.getIdx 0).bind fun c0 =>
  (c0.getProp "message").bind fun msg =>
  msg.getProp "content"

/-- The result record built by `askOpenAI` on success (worker.js lines
119-130), with the field accesses performed in source order; `none` models a
thrown TypeError along any access chain. -/
def extractAskResponse (model : String) (data : JsVal) : Option OpenAIResponse :=
  (data.getProp "choices").bind fun choices =>
  (choices.getIdx 0).bind fun c0 =>
  (c0.getProp "message").bind fun msg =>
  (msg.getProp "content").bind fun text =>
  (data.getProp "usage").bind fun u1 =>
  (u1.getProp "prompt_tokens").bind fun pt =>
  (data.getProp "usage").bind fun u2 =>
  (u2.getProp "completion_tokens").bind fun ct =>
  (data.getProp "usage").bind fun u3 =>
  (u3.getProp "total_tokens").bind fun tt =>
  (data.getProp "choices").bind fun choicesB =>
  (choicesB.getIdx 0).bind fun c0b =>
  (c0b.getProp "finish_reason").bind fun fr =>
  some { text := text
         usage := { promptTokens := pt, completionTokens := ct, totalTokens := tt }
         metadata := { model := model, finishReason := fr } }

/-- The try/catch body of `chat` applied to the fetch outcome (worker.js lines
45-80): every failure is caught, logged once, and re-raised as the fixed
generic error. -/
def handleChatFetch : FetchResult → Except String ChatResponse × List LogEntry
  | .networkError => (Except.error genericErrorMessage, [LogEntry.networkFailure])
  | .resp status body =>
    if statusOk status then
      match body with
      | none => (Except.error genericErrorMessage, [LogEntry.jsonParseFailure])
      | some data =>
        match extractChatText data with
        | none => (Except.error genericErrorMessage, [LogEntry.shapeFailure])
        | some t => (Except.ok { text := t }, [])
    else
      match body with
      | none => (Except.error genericErrorMessage, [LogEntry.jsonParseFailure])
      | some payload => (Except.error genericErrorMessage, [LogEntry.upstreamError payload])

/-- The try/catch body of `askOpenAI` applied to the fetch outcome (worker.js
lines 90-134). -/
def handleAskFetch (model : String) :
    FetchResult → Except String OpenAIResponse × List LogEntry
  | .networkError => (Except.error genericErrorMessage, [LogEntry.networkFailure])
  | .resp status body =>
    if statusOk status then
      match body with
      | none => (Except.error genericErrorMessage, [LogEntry.jsonParseFailure])
      | some data =>
        match extractAskResponse model data with
        | none => (Except.error genericErrorMessage, [LogEntry.shapeFailure])
        | some r => (Except.ok r, [])
    else
      match body with
      | none => (Except.error genericErrorMessage, [LogEntry.jsonParseFailure])
      | some payload => (Except.error genericErrorMessage, [LogEntry.upstreamError payload])

/-- The `chat` resolver (worker.js lines 37-81).  `apiKey` is
`ctx.env.OPENAI_API_KEY`: `none` models an absent secret, and the guard
`if (!apiKey)` also fires on the empty string (JavaScript falsiness). -/
def runChat (upstream : OutboundRequest → FetchResult)
    (message : String) (apiKey : Option String) : RunResult ChatResponse :=
  match apiKey with
  | none => { result := Except.error configErrorMessage, calls := [], logs := [] }
  | some key =>
    if key = "" then
      { result := Except.error configErrorMessage, calls := [], logs := [] }
    else
      { result := (handleChatFetch (upstream (chatRequest key message))).1
        calls := [chatRequest key message]
        logs := (handleChatFetch (upstream (chatRequest key message))).2 }

/-- The `askOpenAI` resolver (worker.js lines 82-135).  `modelArg = none`
models an omitted `model` argument, which takes the default parameter value. -/
def runAskOpenAI (upstream : OutboundRequest → FetchResult)
    (prompt : String) (modelArg : Option String) (apiKey : Option String) :
    RunResult OpenAIResponse :=
  match apiKey with
  | none => { result := Except.error configErrorMessage, calls := [], logs := [] }
  | some key =>
    if key = "" then
      { result := Except.error configErrorMessage, calls := [], logs := [] }
    else
      { result := (handleAskFetch (modelArg.getD defaultModel)
                    (upstream (askRequest key (modelArg.getD defaultModel) prompt))).1
        calls := [askRequest key (modelArg.getD defaultModel) prompt]
        logs := (handleAskFetch (modelArg.getD defaultModel)
                  (upstream (askRequest key (modelArg.getD defaultModel) prompt))).2 }

/-- An inbound HTTP request as seen by the worker entry point. -/
structure HttpRequest where
  method : String
  path : String

/-- An HTTP response produced directly by the entry point. -/
structure HttpResponse where
  status : Nat
  body : Option String
  headers : List (String × String)

/-- The CORS headers set on the preflight response (worker.js lines 163-168). -/
def preflightHeaders : List (String × String) :=
  [("Access-Control-Allow-Origin", "*"),
   ("Access-Control-Allow-Methods", "GET, POST, OPTIONS"),
   ("Access-Control-Allow-Headers", "Content-Type, Authorization, Apollo-Require-Preflight"),
   ("Access-Control-Max-Age", "86400")]

/-- What the entry point does with an inbound request: answer it directly
(no GraphQL engine, no resolver, no outbound call), or hand it to the GraphQL
engine together with the environment carrying the secret. -/
inductive WorkerAction where
  | respond (response : HttpResponse)
  | delegate (request : HttpRequest) (env : Option String)

/-- The worker `fetch` entry point (worker.js lines 157-175): an OPTIONS
request of any path is answered directly with 204 and the CORS headers;
everything else is delegated to the GraphQL engine with the env in context. -/
def workerFetch (request : HttpRequest) (env : Option String) : WorkerAction :=
  if request.method = "OPTIONS" then
    WorkerAction.respond { status := 204, body := none, headers := preflightHeaders }
  else
    WorkerAction.delegate request env

/-- A sample upstream `message` object with a string `content`. -/
def sampleMessageVal : JsVal := JsVal.obj [("content", JsVal.str "你好")]

/-- A sample upstream first choice. -/
def sampleChoiceVal : JsVal :=
  JsVal.obj [("message", sampleMessageVal), ("finish_reason", JsVal.str "stop")]

/-- A sample upstream usage object with 3 + 4 = 7 tokens. -/
def sampleUsageVal : JsVal :=
  JsVal.obj [("prompt_tokens", JsVal.int 3), ("completion_tokens", JsVal.int 4),
             ("total_tokens", JsVal.int 7)]

/-- A sample successful upstream body; its own `model` field deliberately
disagrees with the requested model. -/
def sampleDataVal : JsVal :=
  JsVal.obj [("choices", JsVal.arr [sampleChoiceVal]), ("usage", sampleUsageVal),
             ("model", JsVal.str "upstream-reported-model")]

/-- Claim C2: when the API key is absent from the context, both resolvers fail
with the configuration-specific message and issue zero outbound calls and zero
log emissions. -/
theorem missing_key_fails_without_calls
    (upstream : OutboundRequest → FetchResult)
    (message prompt : String) (modelArg : Option String) :
    runChat upstream message none =
      { result := Except.error "OpenAI API key is not configured",
        calls := [], logs := [] } ∧
    runAskOpenAI upstream prompt modelArg none =
      { result := Except.error "OpenAI API key is not configured",
        calls := [], logs := [] } :=
  ⟨rfl, rfl⟩

/-- Claim C9: the credential guard is a falsiness check, so an empty-string
API key also yields the configuration error and zero outbound calls, in both
resolvers. -/
theorem empty_key_fails_without_calls
    (upstream : OutboundRequest → FetchResult)
    (message prompt : String) (modelArg : Option String) :
    runChat upstream message (some "") =
      { result := Except.error "OpenAI API key is not configured",
        calls := [], logs := [] } ∧
    runAskOpenAI upstream prompt modelArg (some "") =
      { result := Except.error "OpenAI API key is not configured",
        calls := [], logs := [] } :=
  ⟨rfl, rfl⟩

/-- Claim C6 counterexample: at a concrete OPTIONS request the entry point
answers directly with 204, an empty body and the CORS headers — but those are
four headers, not the five the claim asserts. -/
theorem options_preflight_not_five_headers :
    workerFetch { method := "OPTIONS", path := "/graphql" } (some "sk-test") =
      WorkerAction.respond
        { status := 204, body := none, headers := preflightHeaders } ∧
    preflightHeaders.length = 4 ∧ ¬ preflightHeaders.length = 5 :=
  ⟨rfl, rfl, by decide⟩

/-- Claim C6 (amended): every OPTIONS request, regardless of path and env,
is answered directly — never delegated to the GraphQL engine, hence no
resolver and no outbound call — with status 204, an empty body, and exactly
the four specified CORS headers. -/
theorem options_preflight_direct_response
    (request : HttpRequest) (env : Option String)
    (h : request.method = "OPTIONS") :
    workerFetch request env =
      WorkerAction.respond
        { status := 204, body := none,
          headers :=
            [("Access-Control-Allow-Origin", "*"),
             ("Access-Control-Allow-Methods", "GET, POST, OPTIONS"),
             ("Access-Control-Allow-Headers",
              "Content-Type, Authorization, Apollo-Require-Preflight"),
             ("Access-Control-Max-Age", "86400")] } := by
  simp [workerFetch, h, preflightHeaders]

/-- Witness for C6 (amended) at a concrete OPTIONS request. -/
theorem options_preflight_direct_response_witness :
    workerFetch { method := "OPTIONS", path := "/anything" } none =
      WorkerAction.respond
        { status := 204, body := none,
          headers :=
            [("Access-Control-Allow-Origin", "*"),
             ("Access-Control-Allow-Methods", "GET, POST, OPTIONS"),
             ("Access-Control-Allow-Headers",
              "Content-Type, Authorization, Apollo-Require-Preflight"),
             ("Access-Control-Max-Age", "86400")] } :=
  options_preflight_direct_response { method := "OPTIONS", path := "/anything" } none rfl

/-- Claim C7: with the credential present, the chat resolver issues exactly one
outbound request — an HTTPS POST to the chat-completion endpoint with a bearer
authorization header, the fixed model, the fixed temperature 0.7, and a
two-element messages list of the fixed system instruction followed by the user
message — whatever the upstream then does. -/
theorem chat_outbound_request_shape
    (upstream : OutboundRequest → FetchResult)
    (message key : String) (hk : key ≠ "") :
    (runChat upstream message (some key)).calls =
      [{ url := "https://api.openai.com/v1/chat/completions",
         method := "POST",
         contentType := "application/json",
         authorization := "Bearer " ++ key,
         body := { model := "gpt-3.5-turbo",
                   messages := [{ role := "system", content := "请用中文回复用户的所有问题。" },
                                { role := "user", content := message }],
                   temperature := 7/10 } }] := by
  simp [runChat, hk, chatRequest, openAIEndpoint, defaultModel, chatSystemContent]

/-- Witness for C7 at a concrete key and message. -/
theorem chat_outbound_request_shape_witness :
    (runChat (fun _ => FetchResult.networkError) "hello" (some "sk-test")).calls =
      [{ url := "https://api.openai.com/v1/chat/completions",
         method := "POST",
         contentType := "application/json",
         authorization := "Bearer " ++ "sk-test",
         body := { model := "gpt-3.5-turbo",
                   messages := [{ role := "system", content := "请用中文回复用户的所有问题。" },
                                { role := "user", content := "hello" }],
                   temperature := 7/10 } }] :=
  chat_outbound_request_shape (fun _ => FetchResult.networkError) "hello" "sk-test"
    (by decide)

/-- Claim C1: for every non-empty message, whenever the credential is present
and the upstream responds with a success status and a JSON body whose first
choice has message content `s`, the chat resolver returns a record whose only
field is `text`, equal to `s`, with one outbound call and no log emission. -/
theorem chat_success_returns_first_choice_text
    (upstream : OutboundRequest → FetchResult)
    (message key : String) (hm : message ≠ "") (hk : key ≠ "")
    (status : Nat) (hst : statusOk status = true)
    (data c0 msgv : JsVal) (cs : List JsVal) (s : String)
    (hch : data.getProp "choices" = some (JsVal.arr cs))
    (h0 : cs[0]? = some c0)
    (hmsg : c0.getProp "message" = some msgv)
    (hct : msgv.getProp "content" = some (JsVal.str s))
    (hup : upstream (chatRequest key message) = FetchResult.resp status (some data)) :
    runChat upstream message (some key) =
      { result := Except.ok { text := JsVal.str s },
        calls := [chatRequest key message], logs := [] } := by
  have hext : extractChatText data = some (JsVal.str s) := by
    simp [extractChatText, hch, JsVal.getIdx, h0, hmsg, hct]
  simp [runChat, hk, hup, handleChatFetch, hst, hext]

/-- Witness for C1 on a concrete successful upstream body. -/
theorem chat_success_returns_first_choice_text_witness :
    runChat (fun _ => FetchResult.resp 200 (some sampleDataVal)) "你好吗" (some "sk-test") =
      { result := Except.ok { text := JsVal.str "你好" },
        calls := [chatRequest "sk-test" "你好吗"], logs := [] } :=
  chat_success_returns_first_choice_text
    (fun _ => FetchResult.resp 200 (some sampleDataVal)) "你好吗" "sk-test"
    (by decide) (by decide) 200 (by decide)
    sampleDataVal sampleChoiceVal sampleMessageVal [sampleChoiceVal] "你好"
    rfl rfl rfl rfl rfl

/-- Claim C3: with the credential present, if the upstream returns a non-success
status (such as 429) with a JSON error body, both resolvers fail with exactly
the fixed generic message — not the upstream payload — and each logs the
failure exactly once. -/
theorem upstream_http_failure_generic_error_logged_once
    (upstream : OutboundRequest → FetchResult)
    (message prompt key : String) (modelArg : Option String) (hk : key ≠ "")
    (status : Nat) (hst : statusOk status = false)
    (errBody errBody2 : JsVal)
    (hup1 : upstream (chatRequest key message) = FetchResult.resp status (some errBody))
    (hup2 : upstream (askRequest key (modelArg.getD "gpt-3.5-turbo") prompt) =
      FetchResult.resp status (some errBody2)) :
    (runChat upstream message (some key)).result =
      Except.error "Failed to get response from OpenAI" ∧
    (runChat upstream message (some key)).logs.length = 1 ∧
    (runAskOpenAI upstream prompt modelArg (some key)).result =
      Except.error "Failed to get response from OpenAI" ∧
    (runAskOpenAI upstream prompt modelArg (some key)).logs.length = 1 := by
  refine ⟨?_, ?_, ?_, ?_⟩ <;>
    simp [runChat, runAskOpenAI, hk, hup1, defaultModel, hup2,
      handleChatFetch, handleAskFetch, hst, genericErrorMessage]

/-- Witness for C3 at status 429 with a concrete JSON error body. -/
theorem upstream_http_failure_generic_error_logged_once_witness :
    (runChat (fun _ => FetchResult.resp 429 (some (JsVal.obj [("error", JsVal.str "rate limit")])))
        "hi" (some "sk-test")).result =
      Except.error "Failed to get response from OpenAI" ∧
    (runChat (fun _ => FetchResult.resp 429 (some (JsVal.obj [("error", JsVal.str "rate limit")])))
        "hi" (some "sk-test")).logs.length = 1 ∧
    (runAskOpenAI (fun _ => FetchResult.resp 429 (some (JsVal.obj [("error", JsVal.str "rate limit")])))
        "hi" none (some "sk-test")).result =
      Except.error "Failed to get response from OpenAI" ∧
    (runAskOpenAI (fun _ => FetchResult.resp 429 (some (JsVal.obj [("error", JsVal.str "rate limit")])))
        "hi" none (some "sk-test")).logs.length = 1 :=
  upstream_http_failure_generic_error_logged_once
    (fun _ => FetchResult.resp 429 (some (JsVal.obj [("error", JsVal.str "rate limit")])))
    "hi" "hi" "sk-test" none (by decide) 429 (by decide)
    (JsVal.obj [("error", JsVal.str "rate limit")])
    (JsVal.obj [("error", JsVal.str "rate limit")]) rfl rfl

/-- Helper: the chat try/catch body never produces an error message other than
the fixed generic one. -/
theorem handleChatFetch_error_generic (fr : FetchResult) (e : String)
    (h : (handleChatFetch fr).1 = Except.error e) : e = genericErrorMessage := by
  rcases fr with _ | ⟨status, body⟩
  · simp [handleChatFetch] at h
    exact h.symm
  · rcases body with _ | data
    · by_cases hs : statusOk status <;> simp [handleChatFetch, hs] at h <;> exact h.symm
    · by_cases hs : statusOk status
      · rcases hx : extractChatText data with _ | t
        · simp [handleChatFetch, hs, hx] at h
          exact h.symm
        · simp [handleChatFetch, hs, hx] at h
      · simp [handleChatFetch, hs] at h
        exact h.symm

/-- Helper: the askOpenAI try/catch body never produces an error message other
than the fixed generic one. -/
theorem handleAskFetch_error_generic (model : String) (fr : FetchResult) (e : String)
    (h : (handleAskFetch model fr).1 = Except.error e) : e = genericErrorMessage := by
  rcases fr with _ | ⟨status, body⟩
  · simp [handleAskFetch] at h
    exact h.symm
  · rcases body with _ | data
    · by_cases hs : statusOk status <;> simp [handleAskFetch, hs] at h <;> exact h.symm
    · by_cases hs : statusOk status
      · rcases hx : extractAskResponse model data with _ | r
        · simp [handleAskFetch, hs, hx] at h
          exact h.symm
        · simp [handleAskFetch, hs, hx] at h
      · simp [handleAskFetch, hs] at h
        exact h.symm

/-- Claim C8: with the credential present, every exception raised after the
credential check — network failure, non-JSON body, missing fields such as an
empty choices array — is caught at the resolver boundary and re-raised as the
fixed generic error: whatever the upstream does, any error either resolver
produces carries exactly that message, so no raw exception escapes. -/
theorem resolver_errors_after_check_are_generic
    (upstream : OutboundRequest → FetchResult)
    (message prompt key : String) (modelArg : Option String) (hk : key ≠ "") :
    (∀ e, (runChat upstream message (some key)).result = Except.error e →
      e = "Failed to get response from OpenAI") ∧
    (∀ e, (runAskOpenAI upstream prompt modelArg (some key)).result = Except.error e →
      e = "Failed to get response from OpenAI") := by
  constructor
  · intro e he
    have hres : (handleChatFetch (upstream (chatRequest key message))).1 =
        Except.error e := by
      simpa [runChat, hk] using he
    exact handleChatFetch_error_generic _ e hres
  · intro e he
    have hres : (handleAskFetch (modelArg.getD defaultModel)
        (upstream (askRequest key (modelArg.getD defaultModel) prompt))).1 =
        Except.error e := by
      simpa [runAskOpenAI, hk] using he
    exact handleAskFetch_error_generic _ _ e hres

/-- Witness for C8: a network failure and an empty choices array both surface
as the fixed generic error. -/
theorem resolver_errors_after_check_are_generic_witness :
    "Failed to get response from OpenAI" = "Failed to get response from OpenAI" ∧
    "Failed to get response from OpenAI" = "Failed to get response from OpenAI" :=
  ⟨(resolver_errors_after_check_are_generic (fun _ => FetchResult.networkError)
      "hi" "hi" "sk-test" none (by decide)).1
      "Failed to get response from OpenAI" rfl,
   (resolver_errors_after_check_are_generic
      (fun _ => FetchResult.resp 200 (some (JsVal.obj [("choices", JsVal.arr [])])))
      "hi" "hi" "sk-test" none (by decide)).2
      "Failed to get response from OpenAI" rfl⟩

/-- Claim C4: on a successful askOpenAI run the usage record copies the
upstream prompt_tokens, completion_tokens and total_tokens verbatim; hence
whenever the upstream body has total_tokens = prompt_tokens + completion_tokens,
the result satisfies totalTokens = promptTokens + completionTokens. -/
theorem askOpenAI_usage_passthrough
    (upstream : OutboundRequest → FetchResult)
    (prompt key : String) (modelArg : Option String) (hk : key ≠ "")
    (status : Nat) (hst : statusOk status = true)
    (data c0 msgv tv uv fr : JsVal) (cs : List JsVal) (p c t : Int)
    (hch : data.getProp "choices" = some (JsVal.arr cs))
    (h0 : cs[0]? = some c0)
    (hmsg : c0.getProp "message" = some msgv)
    (hct : msgv.getProp "content" = some tv)
    (hus : data.getProp "usage" = some uv)
    (hp : uv.getProp "prompt_tokens" = some (JsVal.int p))
    (hc : uv.getProp "completion_tokens" = some (JsVal.int c))
    (ht : uv.getProp "total_tokens" = some (JsVal.int t))
    (hfr : c0.getProp "finish_reason" = some fr)
    (hup : upstream (askRequest key (modelArg.getD "gpt-3.5-turbo") prompt) =
      FetchResult.resp status (some data)) :
    (runAskOpenAI upstream prompt modelArg (some key)).result =
      Except.ok { text := tv,
                  usage := { promptTokens := JsVal.int p, completionTokens := JsVal.int c,
                             totalTokens := JsVal.int t },
                  metadata := { model := modelArg.getD "gpt-3.5-turbo",
                                finishReason := fr } } ∧
    (t = p + c →
      (runAskOpenAI upstream prompt modelArg (some key)).result =
        Except.ok { text := tv,
                    usage := { promptTokens := JsVal.int p, completionTokens := JsVal.int c,
                               totalTokens := JsVal.int (p + c) },
                    metadata := { model := modelArg.getD "gpt-3.5-turbo",
                                  finishReason := fr } }) := by
  have hext : extractAskResponse (modelArg.getD "gpt-3.5-turbo") data =
      some { text := tv,
             usage := { promptTokens := JsVal.int p, completionTokens := JsVal.int c,
                        totalTokens := JsVal.int t },
             metadata := { model := modelArg.getD "gpt-3.5-turbo", finishReason := fr } } := by
    simp [extractAskResponse, hch, JsVal.getIdx, h0, hmsg, hct, hus, hp, hc, ht, hfr]
  have hmain : (runAskOpenAI upstream prompt modelArg (some key)).result =
      Except.ok { text := tv,
                  usage := { promptTokens := JsVal.int p, completionTokens := JsVal.int c,
                             totalTokens := JsVal.int t },
                  metadata := { model := modelArg.getD "gpt-3.5-turbo",
                                finishReason := fr } } := by
    simp [runAskOpenAI, hk, defaultModel, hup, handleAskFetch, hst, hext]
  refine ⟨hmain, fun hrel => ?_⟩
  subst hrel
  exact hmain

/-- Witness for C4 on a concrete upstream body with 3 + 4 = 7 tokens. -/
theorem askOpenAI_usage_passthrough_witness :
    (runAskOpenAI (fun _ => FetchResult.resp 200 (some sampleDataVal))
        "问题" none (some "sk-test")).result =
      Except.ok { text := JsVal.str "你好",
                  usage := { promptTokens := JsVal.int 3, completionTokens := JsVal.int 4,
                             totalTokens := JsVal.int 7 },
                  metadata := { model := "gpt-3.5-turbo",
                                finishReason := JsVal.str "stop" } } := by
  exact (askOpenAI_usage_passthrough
    (fun _ => FetchResult.resp 200 (some sampleDataVal)) "问题" "sk-test" none
    (by decide) 200 (by decide)
    sampleDataVal sampleChoiceVal sampleMessageVal (JsVal.str "你好") sampleUsageVal
    (JsVal.str "stop") [sampleChoiceVal] 3 4 7
    rfl rfl rfl rfl rfl rfl rfl rfl rfl rfl).2 (by decide)

/-- Claim C5: a successful askOpenAI run that omits the model argument echoes
the fixed default model name in metadata.model — the requested (defaulted)
model, not anything read from the upstream body, which is quantified freely
here and in the witness even carries a conflicting model field. -/
theorem askOpenAI_default_model_echoed
    (upstream : OutboundRequest → FetchResult)
    (prompt key : String) (hk : key ≠ "")
    (status : Nat) (hst : statusOk status = true)
    (data c0 msgv tv uv pt ct tt fr : JsVal) (cs : List JsVal)
    (hch : data.getProp "choices" = some (JsVal.arr cs))
    (h0 : cs[0]? = some c0)
    (hmsg : c0.getProp "message" = some msgv)
    (hct : msgv.getProp "content" = some tv)
    (hus : data.getProp "usage" = some uv)
    (hp : uv.getProp "prompt_tokens" = some pt)
    (hc : uv.getProp "completion_tokens" = some ct)
    (ht : uv.getProp "total_tokens" = some tt)
    (hfr : c0.getProp "finish_reason" = some fr)
    (hup : upstream (askRequest key "gpt-3.5-turbo" prompt) =
      FetchResult.resp status (some data)) :
    (runAskOpenAI upstream prompt none (some key)).calls =
      [askRequest key "gpt-3.5-turbo" prompt] ∧
    (runAskOpenAI upstream prompt none (some key)).result =
      Except.ok { text := tv,
                  usage := { promptTokens := pt, completionTokens := ct, totalTokens := tt },
                  metadata := { model := "gpt-3.5-turbo", finishReason := fr } } := by
  have hext : extractAskResponse "gpt-3.5-turbo" data =
      some { text := tv,
             usage := { promptTokens := pt, completionTokens := ct, totalTokens := tt },
             metadata := { model := "gpt-3.5-turbo", finishReason := fr } } := by
    simp [extractAskResponse, hch, JsVal.getIdx, h0, hmsg, hct, hus, hp, hc, ht, hfr]
  constructor
  · simp [runAskOpenAI, hk, defaultModel]
  · simp [runAskOpenAI, hk, defaultModel, hup, handleAskFetch, hst, hext]

/-- Witness for C5: the upstream body reports a different model, yet the
default model name is the one echoed. -/
theorem askOpenAI_default_model_echoed_witness :
    (runAskOpenAI (fun _ => FetchResult.resp 200 (some sampleDataVal))
        "问题二" none (some "sk-test")).calls =
      [askRequest "sk-test" "gpt-3.5-turbo" "问题二"] ∧
    (runAskOpenAI (fun _ => FetchResult.resp 200 (some sampleDataVal))
        "问题二" none (some "sk-test")).result =
      Except.ok { text := JsVal.str "你好",
                  usage := { promptTokens := JsVal.int 3, completionTokens := JsVal.int 4,
                             totalTokens := JsVal.int 7 },
                  metadata := { model := "gpt-3.5-turbo",
                                finishReason := JsVal.str "stop" } } :=
  askOpenAI_default_model_echoed
    (fun _ => FetchResult.resp 200 (some sampleDataVal)) "问题二" "sk-test"
    (by decide) 200 (by decide)
    sampleDataVal sampleChoiceVal sampleMessageVal (JsVal.str "你好") sampleUsageVal
    (JsVal.int 3) (JsVal.int 4) (JsVal.int 7) (JsVal.str "stop") [sampleChoiceVal]
    rfl rfl rfl rfl rfl rfl rfl rfl rfl rfl

/-- Claim C10: with the credential present, each resolver issues exactly one
outbound request; the user text appears verbatim as the content of the second,
user-role entry of an exactly-two-element messages list; and both resolvers
target the same endpoint with the same temperature 0.7. -/
theorem user_text_verbatim_same_endpoint_temperature
    (upstream : OutboundRequest → FetchResult)
    (message prompt key : String) (modelArg : Option String) (hk : key ≠ "") :
    (runChat upstream message (some key)).calls = [chatRequest key message] ∧
    (runAskOpenAI upstream prompt modelArg (some key)).calls =
      [askRequest key (modelArg.getD "gpt-3.5-turbo") prompt] ∧
    (chatRequest key message).body.messages.length = 2 ∧
    (askRequest key (modelArg.getD "gpt-3.5-turbo") prompt).body.messages.length = 2 ∧
    (chatRequest key message).body.messages[1]? =
      some { role := "user", content := message } ∧
    (askRequest key (modelArg.getD "gpt-3.5-turbo") prompt).body.messages[1]? =
      some { role := "user", content := prompt } ∧
    (chatRequest key message).url = "https://api.openai.com/v1/chat/completions" ∧
    (askRequest key (modelArg.getD "gpt-3.5-turbo") prompt).url =
      "https://api.openai.com/v1/chat/completions" ∧
    (chatRequest key message).body.temperature = 7/10 ∧
    (askRequest key (modelArg.getD "gpt-3.5-turbo") prompt).body.temperature = 7/10 := by
  refine ⟨?_, ?_, ?_, ?_, ?_, ?_, ?_, ?_, ?_, ?_⟩ <;>
    simp [runChat, runAskOpenAI, hk, defaultModel, chatRequest, askRequest, openAIEndpoint]

/-- Witness for C10 at concrete key, message and prompt. -/
theorem user_text_verbatim_same_endpoint_temperature_witness :
    (runChat (fun _ => FetchResult.networkError) "msgA" (some "sk-test")).calls =
      [chatRequest "sk-test" "msgA"] ∧
    (runAskOpenAI (fun _ => FetchResult.networkError) "promptB" (some "gpt-4") (some "sk-test")).calls =
      [askRequest "sk-test" ((some "gpt-4").getD "gpt-3.5-turbo") "promptB"] ∧
    (chatRequest "sk-test" "msgA").body.messages.length = 2 ∧
    (askRequest "sk-test" ((some "gpt-4").getD "gpt-3.5-turbo") "promptB").body.messages.length = 2 ∧
    (chatRequest "sk-test" "msgA").body.messages[1]? =
      some { role := "user", content := "msgA" } ∧
    (askRequest "sk-test" ((some "gpt-4").getD "gpt-3.5-turbo") "promptB").body.messages[1]? =
      some { role := "user", content := "promptB" } ∧
    (chatRequest "sk-test" "msgA").url = "https://api.openai.com/v1/chat/completions" ∧
    (askRequest "sk-test" ((some "gpt-4").getD "gpt-3.5-turbo") "promptB").url =
      "https://api.openai.com/v1/chat/completions" ∧
    (chatRequest "sk-test" "msgA").body.temperature = 7/10 ∧
    (askRequest "sk-test" ((some "gpt-4").getD "gpt-3.5-turbo") "promptB").body.temperature = 7/10 :=
  user_text_verbatim_same_endpoint_temperature
    (fun _ => FetchResult.networkError) "msgA" "promptB" "sk-test" (some "gpt-4")
    (by decide)
